import Mathlib

/-!
A shallow embedding of the authentication/session core of the
train-system frontend: the unified identity model, the auth-context
state machine (login, register, logout, hasRole, startup session
resolution), the two route guards, the axios interceptor pair, the
`handleApiError` helper, and the `getDelayStatus` bucketing helper.

Each definition mirrors one function of the TypeScript source; theorems
at the end settle the spec claims.
-/

namespace TrainFrontend

/-- The unified user shape (`UnifiedUser` in `types/index.ts`): a single
record representing both passengers and administrators, discriminated by
`is_admin`, with an advisory role list. Optional presentation-only
fields (name, username, timestamps, ...) are omitted: no claim reads
them. -/
structure UnifiedUser where
  id : Nat
  email : String
  is_admin : Bool
  roles : List String
deriving Repr, DecidableEq

/-- What a route guard renders: the loading placeholder, a
`<Navigate>` redirect (target plus the attempted location preserved as
`state.from`), the in-place access-denied view, or the children. -/
inductive GuardResult
  | loading
  | redirect (target : String) (fromLoc : String)
  | accessDenied
  | render
deriving Repr, DecidableEq

/-- JavaScript string truthiness for the optional `requiredRole` prop:
`requiredRole && ...` is falsy when the prop is `undefined` or the empty
string. -/
def roleRequired (requiredRole : Option String) : Bool :=
  match requiredRole with
  | none => false
  | some r => r != ""

/-- `AdminProtectedRoute` (components/common/AdminProtectedRoute.tsx):
loading placeholder while `isLoading`; redirect to `/admin/login` when
there is no user or the user is not an admin; the in-place
access-denied view when a required role is missing; otherwise the
children. -/
def AdminProtectedRoute (user : Option UnifiedUser) (isLoading : Bool)
    (requiredRole : Option String) (location : String) : GuardResult :=
  if isLoading then
    GuardResult.loading
  else
    match user with
    | none => GuardResult.redirect "/admin/login" location
    | some u =>
      if !u.is_admin then
        GuardResult.redirect "/admin/login" location
      else if roleRequired requiredRole
          && !(u.roles.contains (requiredRole.getD "")) then
        GuardResult.accessDenied
      else
        GuardResult.render

/-- Modelled from the spec: the General Guard component
(`components/common/ProtectedRoute.tsx`) is imported by `App.tsx` but
its source is not in the repository snapshot. Spec §4.4: while
`isLoading`, render a loading placeholder; once resolved, if
unauthenticated, redirect to `/login` carrying the attempted path; else
render children. -/
def ProtectedRoute (user : Option UnifiedUser) (isLoading : Bool)
    (location : String) : GuardResult :=
  if isLoading then
    GuardResult.loading
  else
    match user with
    | none => GuardResult.redirect "/login" location
    | some _ => GuardResult.render

/-- The `ApiError` shape returned by `handleApiError` (types/index.ts). -/
structure ApiError where
  detail : String
  status_code : Nat
deriving Repr, DecidableEq

/-- The axios error object as the interceptors and `handleApiError`
observe it: `error.response?.status`, `error.response.data?.detail`,
whether `error.request` exists (a request went out but no response came
back), and `error.message`. `responseStatus = none` models an error
without a `response` object. -/
structure AxiosError where
  responseStatus : Option Nat
  responseDetail : Option String
  requestMade : Bool
  message : Option String
deriving Repr, DecidableEq

/-- JavaScript `v || fallback` for an optional string: the fallback is
taken when `v` is `undefined` or the empty string (both falsy). -/
def jsStringOr (v : Option String) (fallback : String) : String :=
  match v with
  | none => fallback
  | some s => if s = "" then fallback else s

/-- `handleApiError` (services/api.ts lines 945-962): a response with a
status yields its `detail` (or a generic message), a request without a
response yields the connection message with `status_code` 0, anything
else yields `error.message` (or a generic message) with `status_code`
0. -/
def handleApiError (e : AxiosError) : ApiError :=
  match e.responseStatus with
  | some status =>
    { detail := jsStringOr e.responseDetail "An error occurred"
      status_code := status }
  | none =>
    if e.requestMade then
      { detail := "Network error - please check your connection"
        status_code := 0 }
    else
      { detail := jsStringOr e.message "An unexpected error occurred"
        status_code := 0 }

/-- The `AuthResponse` shape (types/index.ts): bearer token plus the
authenticated identity. -/
structure AuthResponse where
  access_token : String
  token_type : String
  user : UnifiedUser
deriving Repr, DecidableEq

/-- The auth-relevant mutable state of the process: the Token Store
(`localStorage['authToken']`) together with the `AuthProvider`'s React
state (`user`, `isLoading`, `skipInitialization`). -/
structure AuthState where
  token : Option String
  user : Option UnifiedUser
  isLoading : Bool
  skipInitialization : Bool
deriving Repr, DecidableEq

/-- The state of a fresh application start: no user yet, `isLoading`
initially true, latch unset; the Token Store may hold a persisted
token. -/
def startupState (token : Option String) : AuthState :=
  { token := token, user := none, isLoading := true, skipInitialization := false }

/-- `login` (AuthContext.tsx lines 58-70). The network outcome of
`authService.login` is passed in explicitly: `.ok r` for a 2xx
response, `.error e` for a rejection. On success the token is stored,
the identity installed and the skip-latch set; on failure the state is
untouched and an error carrying `handleApiError(e).detail` is thrown. -/
def login (s : AuthState) (result : Except AxiosError AuthResponse) :
    AuthState × Except String AuthResponse :=
  match result with
  | Except.ok r =>
    ({ s with token := some r.access_token
              user := some r.user
              skipInitialization := true },
     Except.ok r)
  | Except.error e => (s, Except.error (handleApiError e).detail)

/-- `register` (AuthContext.tsx lines 72-81). On success the token is
stored and the identity installed — but unlike `login`, the skip-latch
is not touched; on failure the state is untouched and an error carrying
`handleApiError(e).detail` is thrown. -/
def register (s : AuthState) (result : Except AxiosError AuthResponse) :
    AuthState × Except String Unit :=
  match result with
  | Except.ok r =>
    ({ s with token := some r.access_token, user := some r.user },
     Except.ok ())
  | Except.error e => (s, Except.error (handleApiError e).detail)

/-- `logout` (AuthContext.tsx lines 83-87): removes the token, clears
the user, clears the skip-latch. -/
def logout (s : AuthState) : AuthState :=
  { s with token := none, user := none, skipInitialization := false }

/-- `hasRole` (AuthContext.tsx lines 89-92): false without a user, else
`user.roles.includes(role)`. Modelled as an operation returning both
the boolean and the (unchanged) state, so that purity is a statement
rather than a modelling assumption. -/
def hasRole (s : AuthState) (role : String) : Bool × AuthState :=
  (match s.user with
   | none => false
   | some u => u.roles.contains role, s)

/-- `initializeAuth` (AuthContext.tsx lines 33-56), the body of the
startup effect. The identity-fetch outcome (`authService.getCurrentUser`)
is passed in explicitly and is only consulted when a token is present.
Returns the new state, whether the body ran past the skip-latch guard,
and whether a network call was made. -/
def initializeAuth (s : AuthState) (fetch : Except AxiosError UnifiedUser) :
    AuthState × Bool × Bool :=
  if s.skipInitialization then
    (s, false, false)
  else
    let s1 := { s with isLoading := true }
    match s1.token with
    | none => ({ s1 with isLoading := false }, true, false)
    | some _ =>
      match fetch with
      | Except.ok u =>
        ({ s1 with user := some u, isLoading := false }, true, true)
      | Except.error _ =>
        ({ s1 with token := none, user := none, isLoading := false }, true, true)

/-- The auth-context operations a page can trigger after mount, as far
as they affect the startup effect's dependency `[skipInitialization]`:
a successful login and a logout. -/
inductive AuthEvent
  | loginSuccess (r : AuthResponse)
  | logoutEvt
deriving Repr

/-- State change performed by one event. -/
def applyEvent (s : AuthState) (e : AuthEvent) : AuthState :=
  match e with
  | AuthEvent.loginSuccess r => (login s (Except.ok r)).1
  | AuthEvent.logoutEvt => logout s

/-- React semantics of `useEffect(initializeAuth, [skipInitialization])`:
the effect runs at mount and again after every event that changes
`skipInitialization`. Returns the final state and how many times the
resolver body ran past the skip-latch guard (a "fire"). -/
def runTrace (fetch : Except AxiosError UnifiedUser) (s : AuthState)
    (events : List AuthEvent) : AuthState × Nat :=
  let mount := initializeAuth s fetch
  events.foldl
    (fun acc e =>
      let after := applyEvent acc.1 e
      if after.skipInitialization = acc.1.skipInitialization then
        (after, acc.2)
      else
        let run := initializeAuth after fetch
        (run.1, acc.2 + (if run.2.1 then 1 else 0)))
    (mount.1, if mount.2.1 then 1 else 0)

/-- JS `needle` is a prefix of `haystack` (character lists). -/
def charsStartWith : List Char → List Char → Bool
  | _, [] => true
  | [], _ :: _ => false
  | a :: as, b :: bs => a == b && charsStartWith as bs

/-- JS substring search over character lists. -/
def charsInclude : List Char → List Char → Bool
  | [], n => charsStartWith [] n
  | c :: t, n => charsStartWith (c :: t) n || charsInclude t n

/-- JavaScript `haystack.includes(needle)` on strings. -/
def strIncludes (haystack needle : String) : Bool :=
  charsInclude haystack.toList needle.toList

/-- The observable state the response interceptors touch: the Token
Store, `window.location.pathname`, and a pending forced navigation
(`window.location.href` assignment), `none` when no navigation was
forced. -/
structure BrowserState where
  token : Option String
  pathname : String
  navTarget : Option String
deriving Repr, DecidableEq

/-- `api.interceptors.response` error handler (services/api.ts lines
127-139): on `error.response?.status === 401`, remove the token and, if
the pathname does not contain `/login`, navigate to `/login`; always
re-reject with the original error. -/
def apiResponseOnError (e : AxiosError) (b : BrowserState) :
    BrowserState × Except AxiosError Unit :=
  if e.responseStatus == some 401 then
    let b1 := { b with token := none }
    if !(strIncludes b1.pathname "/login") then
      ({ b1 with navTarget := some "/login" }, Except.error e)
    else
      (b1, Except.error e)
  else
    (b, Except.error e)

/-- `adminApi.interceptors.response` error handler (services/api.ts
lines 161-172): identical shape, navigating to `/admin/login`. -/
def adminApiResponseOnError (e : AxiosError) (b : BrowserState) :
    BrowserState × Except AxiosError Unit :=
  if e.responseStatus == some 401 then
    let b1 := { b with token := none }
    if !(strIncludes b1.pathname "/login") then
      ({ b1 with navTarget := some "/admin/login" }, Except.error e)
    else
      (b1, Except.error e)
  else
    (b, Except.error e)

/-- The record returned by `getDelayStatus`. -/
structure DelayStatus where
  status : String
  delay : Int
  message : String
deriving Repr, DecidableEq

/-- `getDelayStatus` (utils — delay bucketing): inputs are the two
parsed timestamps in epoch milliseconds; `Math.floor` of the difference
in minutes is `Int.fdiv` (floor division). -/
def getDelayStatus (scheduledMs estimatedMs : Int) : DelayStatus :=
  let delayMinutes : Int := Int.fdiv (estimatedMs - scheduledMs) (1000 * 60)
  if delayMinutes ≤ 0 then
    { status := "on_time", delay := 0, message := "On time" }
  else if delayMinutes ≤ 5 then
    { status := "slight_delay", delay := delayMinutes
      message := toString delayMinutes ++ " min late" }
  else
    { status := "delayed", delay := delayMinutes
      message := toString delayMinutes ++ " min late" }

/-- C1: an identity with `is_admin = false` never reaches the children of
the Admin Guard (once loading has resolved, it is redirected to
`/admin/login` whatever its roles); an identity with `is_admin = true`
and no required role at the call site renders the children. -/
theorem admin_guard_exclusivity (u : UnifiedUser) (l : Bool)
    (r : Option String) (loc : String) :
    (u.is_admin = false →
      AdminProtectedRoute (some u) l r loc ≠ GuardResult.render ∧
      (l = false →
        AdminProtectedRoute (some u) l r loc
          = GuardResult.redirect "/admin/login" loc)) ∧
    (u.is_admin = true → l = false →
      AdminProtectedRoute (some u) l none loc = GuardResult.render) := by
  constructor
  · intro hadm
    unfold AdminProtectedRoute
    constructor
    · cases l <;> simp [hadm]
    · intro hl
      subst hl
      simp [hadm]
  · intro hadm hl
    subst hl
    unfold AdminProtectedRoute
    simp [hadm, roleRequired]

/-- Witness for C1 at concrete identities: a non-admin with
`roles = ["admin"]` is redirected, an admin with no required role is
rendered. -/
theorem admin_guard_exclusivity_witness :
    AdminProtectedRoute (some ⟨1, "u@x.com", false, ["admin"]⟩) false none "/admin/lines"
      = GuardResult.redirect "/admin/login" "/admin/lines" ∧
    AdminProtectedRoute (some ⟨2, "a@x.com", true, []⟩) false none "/admin/lines"
      = GuardResult.render := by
  refine ⟨?_, ?_⟩
  · exact ((admin_guard_exclusivity ⟨1, "u@x.com", false, ["admin"]⟩ false none
      "/admin/lines").1 rfl).2 rfl
  · exact (admin_guard_exclusivity ⟨2, "a@x.com", true, []⟩ false none
      "/admin/lines").2 rfl rfl

/-- C5: while `isLoading` is true, both guards render the loading
placeholder and never a redirect, whatever the user and required role. -/
theorem guards_no_premature_redirect (user : Option UnifiedUser)
    (r : Option String) (loc : String) :
    AdminProtectedRoute user true r loc = GuardResult.loading ∧
    ProtectedRoute user true loc = GuardResult.loading ∧
    (∀ t f, AdminProtectedRoute user true r loc ≠ GuardResult.redirect t f) ∧
    (∀ t f, ProtectedRoute user true loc ≠ GuardResult.redirect t f) := by
  refine ⟨rfl, rfl, ?_, ?_⟩ <;> intro t f <;> simp [AdminProtectedRoute, ProtectedRoute]

theorem initializeAuth_skip_eq (s : AuthState)
    (f : Except AxiosError UnifiedUser) :
    (initializeAuth s f).1.skipInitialization = s.skipInitialization := by
  unfold initializeAuth
  split
  · rfl
  · cases htok : s.token
    · simp [htok]
    · simp only [htok]
      cases f <;> rfl

theorem initializeAuth_passes_guard (s : AuthState)
    (f : Except AxiosError UnifiedUser) (h : s.skipInitialization = false) :
    (initializeAuth s f).2.1 = true := by
  unfold initializeAuth
  rw [h]
  simp
  cases htok : s.token
  · simp [htok]
  · simp only [htok]
    cases f <;> rfl

theorem initializeAuth_blocked (s : AuthState)
    (f : Except AxiosError UnifiedUser) (h : s.skipInitialization = true) :
    initializeAuth s f = (s, false, false) := by
  unfold initializeAuth
  rw [h]
  rfl

/-- C2: on a response error carrying HTTP 401, both the general and the
admin response interceptors clear the stored token; each forces a
navigation to its own login route exactly when the current pathname does
not already contain `/login`; and both re-raise the original error. -/
theorem interceptors_on_401 (e : AxiosError) (b : BrowserState)
    (h : e.responseStatus = some 401) :
    ((apiResponseOnError e b).1.token = none ∧
     (apiResponseOnError e b).2 = Except.error e ∧
     (strIncludes b.pathname "/login" = false →
       (apiResponseOnError e b).1.navTarget = some "/login") ∧
     (strIncludes b.pathname "/login" = true →
       (apiResponseOnError e b).1.navTarget = b.navTarget)) ∧
    ((adminApiResponseOnError e b).1.token = none ∧
     (adminApiResponseOnError e b).2 = Except.error e ∧
     (strIncludes b.pathname "/login" = false →
       (adminApiResponseOnError e b).1.navTarget = some "/admin/login") ∧
     (strIncludes b.pathname "/login" = true →
       (adminApiResponseOnError e b).1.navTarget = b.navTarget)) := by
  unfold apiResponseOnError adminApiResponseOnError
  cases hp : strIncludes b.pathname "/login" <;> simp [h, hp]

/-- C2 witness: a concrete 401 error with the token `"T1"` stored while
on `/admin/stations` clears the token and navigates each surface to its
login route. -/
theorem interceptors_on_401_witness :
    ((apiResponseOnError ⟨some 401, some "Not authenticated", true, none⟩
        ⟨some "T1", "/admin/stations", none⟩).1.token = none ∧
     (apiResponseOnError ⟨some 401, some "Not authenticated", true, none⟩
        ⟨some "T1", "/admin/stations", none⟩).1.navTarget = some "/login") ∧
    ((adminApiResponseOnError ⟨some 401, some "Not authenticated", true, none⟩
        ⟨some "T1", "/admin/stations", none⟩).1.token = none ∧
     (adminApiResponseOnError ⟨some 401, some "Not authenticated", true, none⟩
        ⟨some "T1", "/admin/stations", none⟩).1.navTarget = some "/admin/login") := by
  have h := interceptors_on_401 ⟨some 401, some "Not authenticated", true, none⟩
    ⟨some "T1", "/admin/stations", none⟩ rfl
  refine ⟨⟨h.1.1, h.1.2.2.1 (by decide)⟩, ⟨h.2.1, h.2.2.2.1 (by decide)⟩⟩

/-- C3 counterexample: at a concrete state with the latch unset, a
successful `register` leaves `skipInitialization` false, while the same
response through `login` sets it — `register` does not set the one-shot
latch, contrary to the claim. -/
theorem register_latch_counterexample :
    (register (startupState none)
        (Except.ok ⟨"T", "bearer", ⟨1, "a@b.com", false, ["user"]⟩⟩)).1.skipInitialization
      = false ∧
    (login (startupState none)
        (Except.ok ⟨"T", "bearer", ⟨1, "a@b.com", false, ["user"]⟩⟩)).1.skipInitialization
      = true := ⟨rfl, rfl⟩

/-- C3 amended: a successful `register(data)` stores the returned token
and installs the returned identity exactly like `login`, but unlike
`login` it does not set the `skipInitialization` latch — the latch keeps
its previous value. -/
theorem register_contract (s : AuthState) (r : AuthResponse) :
    (register s (Except.ok r)).1.token = some r.access_token ∧
    (register s (Except.ok r)).1.user = some r.user ∧
    (register s (Except.ok r)).1.skipInitialization = s.skipInitialization ∧
    (register s (Except.ok r)).2 = Except.ok () :=
  ⟨rfl, rfl, rfl, rfl⟩

/-- C4 counterexample: from a fresh mount with an empty Token Store, the
trace "successful login, then logout" flips the effect dependency
`skipInitialization` from false to true and back to false, so the
resolver body runs past its guard a second time: the fire count over
this trace is 2, not 1. -/
theorem resolver_refires_counterexample :
    (runTrace (Except.error ⟨some 401, none, true, none⟩) (startupState none)
      [AuthEvent.loginSuccess ⟨"T", "bearer", ⟨1, "a@b.com", false, ["user"]⟩⟩,
       AuthEvent.logoutEvt]).2 = 2 := by decide

/-- C4 amended: the resolver fires once at mount when the latch is
unset, and is not re-run while the latch value never changes (an empty
trace gives fire count 1) — but because the effect re-runs on every
latch change and `logout` clears the latch, a login followed by a logout
fires the resolver a second time. -/
theorem resolver_fire_count (fetch : Except AxiosError UnifiedUser)
    (s : AuthState) (r : AuthResponse) (h : s.skipInitialization = false) :
    (runTrace fetch s []).2 = 1 ∧
    (runTrace fetch s
      [AuthEvent.loginSuccess r, AuthEvent.logoutEvt]).2 = 2 := by
  constructor
  · unfold runTrace
    simp [List.foldl, initializeAuth_passes_guard s fetch h]
  · unfold runTrace
    simp only [List.foldl]
    rw [initializeAuth_passes_guard s fetch h]
    have hskip : (initializeAuth s fetch).1.skipInitialization = false := by
      rw [initializeAuth_skip_eq]; exact h
    simp only [applyEvent, login, logout, hskip]
    simp only [if_true]
    have hblocked := initializeAuth_blocked
      { (initializeAuth s fetch).1 with
          token := some r.access_token, user := some r.user,
          skipInitialization := true } fetch rfl
    simp [hblocked, hskip]
    rw [initializeAuth_passes_guard _ fetch rfl]
    simp

/-- C4 amended claim witness at a concrete startup state and login
response. -/
theorem resolver_fire_count_witness :
    (runTrace (Except.error ⟨some 401, none, true, none⟩)
      (startupState (some "T0")) []).2 = 1 ∧
    (runTrace (Except.error ⟨some 401, none, true, none⟩)
      (startupState (some "T0"))
      [AuthEvent.loginSuccess ⟨"T", "bearer", ⟨1, "a@b.com", false, ["user"]⟩⟩,
       AuthEvent.logoutEvt]).2 = 2 :=
  resolver_fire_count (Except.error ⟨some 401, none, true, none⟩)
    (startupState (some "T0")) ⟨"T", "bearer", ⟨1, "a@b.com", false, ["user"]⟩⟩ rfl

/-- C6: with the latch unset, the session resolver (a) on an empty Token
Store ends with no session and makes no network call, (b) with a stored
token and a failing identity fetch clears the Token Store, sets the
identity absent and ends loading, and (c) ends with `isLoading = false`
in every branch. -/
theorem session_resolver_contract (s : AuthState)
    (fetch : Except AxiosError UnifiedUser)
    (h : s.skipInitialization = false) :
    (s.token = none → s.user = none →
      (initializeAuth s fetch).1.user = none ∧
      (initializeAuth s fetch).2.2 = false ∧
      (initializeAuth s fetch).1.isLoading = false) ∧
    (∀ e t, fetch = Except.error e → s.token = some t →
      (initializeAuth s fetch).1.token = none ∧
      (initializeAuth s fetch).1.user = none ∧
      (initializeAuth s fetch).1.isLoading = false) ∧
    (initializeAuth s fetch).1.isLoading = false := by
  refine ⟨?_, ?_, ?_⟩
  · intro htok huser
    unfold initializeAuth
    simp [h, htok, huser]
  · intro e t hf htok
    unfold initializeAuth
    simp [h, htok, hf]
  · unfold initializeAuth
    simp [h]
    cases htok : s.token
    · simp [htok]
    · simp only [htok]
      cases fetch <;> rfl

/-- C6 witness: an empty store resolves with no call; a stored token
with a failing fetch ends cleared and unloaded. -/
theorem session_resolver_contract_witness :
    ((initializeAuth (startupState none)
        (Except.error ⟨some 401, none, true, none⟩)).1.user = none ∧
     (initializeAuth (startupState none)
        (Except.error ⟨some 401, none, true, none⟩)).2.2 = false) ∧
    ((initializeAuth (startupState (some "T1"))
        (Except.error ⟨some 401, none, true, none⟩)).1.token = none ∧
     (initializeAuth (startupState (some "T1"))
        (Except.error ⟨some 401, none, true, none⟩)).1.user = none ∧
     (initializeAuth (startupState (some "T1"))
        (Except.error ⟨some 401, none, true, none⟩)).1.isLoading = false) := by
  have h1 := session_resolver_contract (startupState none)
    (Except.error ⟨some 401, none, true, none⟩) rfl
  have h2 := session_resolver_contract (startupState (some "T1"))
    (Except.error ⟨some 401, none, true, none⟩) rfl
  exact ⟨⟨(h1.1 rfl rfl).1, (h1.1 rfl rfl).2.1⟩,
    h2.2.1 ⟨some 401, none, true, none⟩ "T1" rfl rfl⟩

/-- C7: a failing `login` leaves the state exactly as it was (so no
identity is installed and no token written), and the thrown message is
the backend's non-empty `detail` on an HTTP error response, or the
generic connection message on transport failure. -/
theorem login_failure_contract (s : AuthState) (e : AxiosError) :
    (login s (Except.error e)).1 = s ∧
    (∀ c m, e.responseStatus = some c → e.responseDetail = some m →
      m ≠ "" → (login s (Except.error e)).2 = Except.error m) ∧
    (e.responseStatus = none → e.requestMade = true →
      (login s (Except.error e)).2
        = Except.error "Network error - please check your connection") := by
  refine ⟨rfl, ?_, ?_⟩
  · intro c m hc hm hne
    unfold login handleApiError
    simp [hc, hm, jsStringOr, hne]
  · intro hc hr
    unfold login handleApiError
    simp [hc, hr]

/-- C7 witness: a 401 with detail `"Incorrect email or password"` throws
that message; a transport failure throws the connection message; both at
the unauthenticated startup state, which is left unchanged. -/
theorem login_failure_contract_witness :
    (login (startupState none)
      (Except.error ⟨some 401, some "Incorrect email or password", true, none⟩)).1
      = startupState none ∧
    (login (startupState none)
      (Except.error ⟨some 401, some "Incorrect email or password", true, none⟩)).2
      = Except.error "Incorrect email or password" ∧
    (login (startupState none)
      (Except.error ⟨none, none, true, none⟩)).2
      = Except.error "Network error - please check your connection" := by
  have h1 := login_failure_contract (startupState none)
    ⟨some 401, some "Incorrect email or password", true, none⟩
  have h2 := login_failure_contract (startupState none)
    ⟨none, none, true, none⟩
  exact ⟨h1.1,
    h1.2.1 401 "Incorrect email or password" rfl rfl (by decide),
    h2.2.2 rfl rfl⟩

/-- C8: `hasRole` never changes the state; it returns false whenever the
identity is absent, and otherwise returns true exactly when the role is
a member of the identity's role list. -/
theorem hasRole_contract (s : AuthState) (r : String) :
    (hasRole s r).2 = s ∧
    (s.user = none → (hasRole s r).1 = false) ∧
    (∀ u, s.user = some u → ((hasRole s r).1 = true ↔ r ∈ u.roles)) := by
  refine ⟨rfl, ?_, ?_⟩
  · intro hu
    unfold hasRole
    simp [hu]
  · intro u hu
    unfold hasRole
    simp [hu]

/-- C8 witness: with no identity the check is false; with an identity
holding `roles = ["user"]`, the check answers membership, and the state
is unchanged. -/
theorem hasRole_contract_witness :
    (hasRole (startupState none) "admin").2 = startupState none ∧
    (hasRole (startupState none) "admin").1 = false ∧
    ((hasRole { startupState none with
        user := some ⟨1, "a@b.com", false, ["user"]⟩ } "user").1 = true ↔
      "user" ∈ ["user"]) := by
  have h1 := hasRole_contract (startupState none) "admin"
  have h2 := hasRole_contract
    { startupState none with user := some ⟨1, "a@b.com", false, ["user"]⟩ } "user"
  exact ⟨h1.1, h1.2.1 rfl, h2.2.2 ⟨1, "a@b.com", false, ["user"]⟩ rfl⟩

/-- C9: `logout` is idempotent — a second call leaves the whole state
(token, identity, latch, loading flag) exactly as one call does — and
one call leaves the token absent, the identity absent and the latch
cleared; as a total function it cannot fail. -/
theorem logout_idempotent (s : AuthState) :
    logout (logout s) = logout s ∧
    (logout s).token = none ∧
    (logout s).user = none ∧
    (logout s).skipInitialization = false :=
  ⟨rfl, rfl, rfl, rfl⟩

/-- C10: `getDelayStatus` buckets the floored minute delay `d` into
exactly three cases: `d ≤ 0` reports on-time with delay 0 (never a
negative delay), `1 ≤ d ≤ 5` reports a slight delay of `d`, and `d > 5`
reports delayed by `d`. -/
theorem getDelayStatus_buckets (scheduledMs estimatedMs : Int) :
    (Int.fdiv (estimatedMs - scheduledMs) (1000 * 60) ≤ 0 →
      getDelayStatus scheduledMs estimatedMs
        = ⟨"on_time", 0, "On time"⟩) ∧
    (1 ≤ Int.fdiv (estimatedMs - scheduledMs) (1000 * 60) →
      Int.fdiv (estimatedMs - scheduledMs) (1000 * 60) ≤ 5 →
      getDelayStatus scheduledMs estimatedMs
        = ⟨"slight_delay", Int.fdiv (estimatedMs - scheduledMs) (1000 * 60),
           toString (Int.fdiv (estimatedMs - scheduledMs) (1000 * 60))
             ++ " min late"⟩) ∧
    (5 < Int.fdiv (estimatedMs - scheduledMs) (1000 * 60) →
      getDelayStatus scheduledMs estimatedMs
        = ⟨"delayed", Int.fdiv (estimatedMs - scheduledMs) (1000 * 60),
           toString (Int.fdiv (estimatedMs - scheduledMs) (1000 * 60))
             ++ " min late"⟩) := by
  refine ⟨?_, ?_, ?_⟩
  · intro hle
    simp only [getDelayStatus]
    rw [if_pos hle]
  · intro h1 h5
    simp only [getDelayStatus]
    rw [if_neg (fun hc => absurd (le_trans h1 hc) (by norm_num)), if_pos h5]
  · intro hgt
    simp only [getDelayStatus]
    rw [if_neg (fun hc => absurd (lt_of_lt_of_le hgt hc) (by norm_num)),
        if_neg (not_le.mpr hgt)]

/-- C10 witness: a 90-second early arrival reports on-time with delay 0;
a 3-minute delay reports slight delay 3; a 10-minute delay reports
delayed 10. -/
theorem getDelayStatus_buckets_witness :
    getDelayStatus 90000 0 = ⟨"on_time", 0, "On time"⟩ ∧
    getDelayStatus 0 180000 = ⟨"slight_delay", 3, "3 min late"⟩ ∧
    getDelayStatus 0 600000 = ⟨"delayed", 10, "10 min late"⟩ := by
  refine ⟨(getDelayStatus_buckets 90000 0).1 (by decide),
    ?_, ?_⟩
  · have h := (getDelayStatus_buckets 0 180000).2.1 (by decide) (by decide)
    simpa using h
  · have h := (getDelayStatus_buckets 0 600000).2.2 (by decide)
    simpa using h

end TrainFrontend
